import Mathlib

/-!
Verification of the Turbulence-Info-Bot atmospheric-hazard pipeline.

The development shallowly embeds the two Python source files of the
repository (`main.py` and `bot.py`).  Scalar values flowing through the
numpy/xarray pipeline are modelled by `AVal`: either a finite real number
(exact arithmetic, no rounding) or one of the IEEE special values
`+inf`, `-inf`, `nan` that numpy float arithmetic produces.  Gridded data
is modelled coordinate-keyed, the way xarray addresses it: a list of
latitude (resp. longitude) coordinate values plus a value function on
coordinates.  Binary xarray operations align their operands on common
coordinates (inner join, order of the left operand), which the embedding
reproduces.  Region bookkeeping (`bot.py`'s continent table and
`main.py`'s bounding-box conversion) is embedded over `ℚ`.
-/

namespace TurbulenceBot

/-- A float-like scalar value as produced by numpy float arithmetic:
either a finite real (idealised, exact) or one of the IEEE special
values. -/
inductive AVal where
  | fin (x : ℝ)
  | pinf
  | ninf
  | nan

/-- Predicate picking out the finite values of `AVal`. -/
def AVal.isFin : AVal → Prop
  | .fin _ => True
  | _ => False

/-- IEEE addition on `AVal` (exact on finite values, no overflow). -/
def aAdd : AVal → AVal → AVal
  | .nan, _ => .nan
  | _, .nan => .nan
  | .fin x, .fin y => .fin (x + y)
  | .fin _, .pinf => .pinf
  | .fin _, .ninf => .ninf
  | .pinf, .fin _ => .pinf
  | .ninf, .fin _ => .ninf
  | .pinf, .pinf => .pinf
  | .ninf, .ninf => .ninf
  | .pinf, .ninf => .nan
  | .ninf, .pinf => .nan

/-- IEEE subtraction on `AVal` (exact on finite values). -/
def aSub : AVal → AVal → AVal
  | .nan, _ => .nan
  | _, .nan => .nan
  | .fin x, .fin y => .fin (x - y)
  | .fin _, .pinf => .ninf
  | .fin _, .ninf => .pinf
  | .pinf, .fin _ => .pinf
  | .ninf, .fin _ => .ninf
  | .pinf, .pinf => .nan
  | .ninf, .ninf => .nan
  | .pinf, .ninf => .pinf
  | .ninf, .pinf => .ninf

/-- IEEE multiplication on `AVal` (exact on finite values); `0 * ±inf`
is `nan`, as in numpy. -/
noncomputable def aMul : AVal → AVal → AVal
  | .nan, _ => .nan
  | _, .nan => .nan
  | .fin x, .fin y => .fin (x * y)
  | .fin x, .pinf => if x = 0 then .nan else if 0 < x then .pinf else .ninf
  | .fin x, .ninf => if x = 0 then .nan else if 0 < x then .ninf else .pinf
  | .pinf, .fin y => if y = 0 then .nan else if 0 < y then .pinf else .ninf
  | .ninf, .fin y => if y = 0 then .nan else if 0 < y then .ninf else .pinf
  | .pinf, .pinf => .pinf
  | .ninf, .ninf => .pinf
  | .pinf, .ninf => .ninf
  | .ninf, .pinf => .ninf

/-- IEEE division on `AVal` (exact on finite values); division of a
nonzero finite value by zero gives a signed infinity, `0 / 0` gives
`nan`, as in numpy (zeroes are unsigned in this model). -/
noncomputable def aDiv : AVal → AVal → AVal
  | .nan, _ => .nan
  | _, .nan => .nan
  | .fin x, .fin y =>
      if y = 0 then (if x = 0 then .nan else if 0 < x then .pinf else .ninf)
      else .fin (x / y)
  | .fin _, .pinf => .fin 0
  | .fin _, .ninf => .fin 0
  | .pinf, .fin y => if 0 ≤ y then .pinf else .ninf
  | .ninf, .fin y => if 0 ≤ y then .ninf else .pinf
  | .pinf, .pinf => .nan
  | .pinf, .ninf => .nan
  | .ninf, .pinf => .nan
  | .ninf, .ninf => .nan

/-- Squaring on `AVal` (the pipeline's `**2`). -/
def aSq : AVal → AVal
  | .nan => .nan
  | .fin x => .fin (x ^ 2)
  | .pinf => .pinf
  | .ninf => .pinf

/-- IEEE square root on `AVal` (the pipeline's `np.sqrt`): `nan` on
negative or `nan` or `-inf` arguments. -/
noncomputable def aSqrt : AVal → AVal
  | .nan => .nan
  | .fin x => if x < 0 then .nan else .fin (Real.sqrt x)
  | .pinf => .pinf
  | .ninf => .nan

/-- IEEE less-than comparison on `AVal` as a boolean: any comparison
involving `nan` is false. -/
noncomputable def aLt : AVal → AVal → Bool
  | .nan, _ => false
  | _, .nan => false
  | .fin x, .fin y => decide (x < y)
  | .ninf, .ninf => false
  | .ninf, _ => true
  | _, .ninf => false
  | .pinf, _ => false
  | .fin _, .pinf => true

/-- Embedding of `classify_turbulence` (main.py, lines 148-165): the
chain of `<` comparisons against the thresholds 5, 10, 15, with the
final `else` returning 3.  The comparisons follow IEEE semantics via
`aLt`, so non-finite inputs fall through according to the `nan`-is-never
-less-than rule. -/
noncomputable def classify_turbulence (shear_value : AVal) : ℕ :=
  if aLt shear_value (.fin 5) then 0
  else if aLt shear_value (.fin 10) then 1
  else if aLt shear_value (.fin 15) then 2
  else 3

/-- A bounding box: four scalar bounds.  The query (API) form is
`(north, west, south, east)`; the display (plot) form is
`(west, east, south, north)`. -/
abbrev RegionBox : Type := ℚ × ℚ × ℚ × ℚ

/-- Embedding of `convert_api_to_plot_format` (main.py, lines 71-85):
destructures `(north, west, south, east)` and returns
`(west, east, south, north)`. -/
def convert_api_to_plot_format (api_coords : RegionBox) : RegionBox :=
  match api_coords with
  | (north, west, south, east) => (west, east, south, north)

/-- Modelled from the spec: the inverse conversion, from display form
`(west, east, south, north)` back to query form
`(north, west, south, east)`.  No such function exists in the source;
the spec posits it as the other direction of the pure order-preserving
conversion between the two box conventions. -/
def to_query_form (display_coords : RegionBox) : RegionBox :=
  match display_coords with
  | (west, east, south, north) => (north, west, south, east)

/-- Embedding of the `continent_boundaries` dictionary defined
identically in `get_windshear_data` (bot.py, lines 38-47) and
`get_turbulence_data` (bot.py, lines 83-92): seven continent names
mapped to query-form bounding boxes. -/
def continent_boundaries : List (String × RegionBox) :=
  [("Africa", (37.38, -18.03, -34.83, 51.48)),
   ("Antarctica", (-60.00, -180.00, -90.00, 180.00)),
   ("Asia", (77.71, 25.98, -11.02, 179.69)),
   ("Australia", (-10.07, 112.92, -43.63, 159.11)),
   ("Europe", (71.00, -31.00, 36.00, 40.00)),
   ("North America", (83.17, -168.69, 14.53, -52.62)),
   ("South America", (13.40, -81.30, -55.96, -34.76))]

/-- Embedding of the region-resolution step
`continent_boundaries.get(continent, [71.0, -31.0, 36.0, 40.0])`
(bot.py, line 49 and line 94): dictionary lookup with Europe's bounds as
the default for any name that is not an exact key. -/
def resolve_continent (continent : String) : RegionBox :=
  (continent_boundaries.lookup continent).getD (71.0, -31.0, 36.0, 40.0)

/-- Embedding of the map-extent computation of `plot_wind_shear`
(main.py, line 98): the values handed to `ax.set_extent` are
`convert_api_to_plot_format(continent)`, so the `continent` argument is
interpreted in query form.  The source's default argument for
`continent` is the query-form Europe box `[71.0, -31.0, 36.0, 40.0]`. -/
def plot_wind_shear_extent (continent : RegionBox) : RegionBox :=
  convert_api_to_plot_format continent

/-- Embedding of the map-extent computation of `plot_turbulence_level`
(main.py, line 181), identical to that of `plot_wind_shear`. -/
def plot_turbulence_level_extent (continent : RegionBox) : RegionBox :=
  convert_api_to_plot_format continent

/-- Embedding of the region flow of `get_windshear_data` (bot.py, lines
49-64): the resolved query-form box is passed unchanged to the plotting
calls, so the extent set while rendering is
`plot_wind_shear_extent (resolve_continent name)`. -/
def get_windshear_data_extent (continent : String) : RegionBox :=
  plot_wind_shear_extent (resolve_continent continent)

/-- Embedding of the region flow of `get_turbulence_data` (bot.py, lines
94-114): the resolved query-form box is passed unchanged to
`plot_turbulence_level`. -/
def get_turbulence_data_extent (continent : String) : RegionBox :=
  plot_turbulence_level_extent (resolve_continent continent)

/-- An xarray `DataArray` with dimensions
(`valid_time`, `latitude`, `longitude`): the coordinate value lists of
each dimension plus a value function keyed by coordinate values. -/
structure DataArray where
  time : List ℚ
  lat : List ℚ
  lon : List ℚ
  val : ℚ → ℚ → ℚ → AVal

/-- A two-dimensional gridded field (latitude × longitude) of scalar
values, as left after the singleton `valid_time` dimension has been
collapsed: the spec's GriddedField / ShearField. -/
structure GriddedField where
  lat : List ℚ
  lon : List ℚ
  val : ℚ → ℚ → AVal

/-- A two-dimensional gridded field of integer category codes: the
spec's TurbulenceField. -/
structure TurbulenceGrid where
  lat : List ℚ
  lon : List ℚ
  val : ℚ → ℚ → ℕ

/-- The downloaded ERA5 dataset: dimensions
(`pressure_level`, `valid_time`, `latitude`, `longitude`) and the three
variables `u`, `v`, `z`, each a value function keyed by pressure level,
time, latitude and longitude. -/
structure Dataset where
  time : List ℚ
  lat : List ℚ
  lon : List ℚ
  u : ℚ → ℚ → ℚ → ℚ → AVal
  v : ℚ → ℚ → ℚ → ℚ → AVal
  z : ℚ → ℚ → ℚ → ℚ → AVal

/-- Embedding of `data['u'].sel(pressure_level=p)`: selecting one
pressure level of variable `u` yields a `DataArray` carrying the
dataset's coordinates. -/
def Dataset.selU (d : Dataset) (p : ℚ) : DataArray :=
  ⟨d.time, d.lat, d.lon, d.u p⟩

/-- Embedding of `data['v'].sel(pressure_level=p)`. -/
def Dataset.selV (d : Dataset) (p : ℚ) : DataArray :=
  ⟨d.time, d.lat, d.lon, d.v p⟩

/-- Embedding of `data['z'].sel(pressure_level=p)`. -/
def Dataset.selZ (d : Dataset) (p : ℚ) : DataArray :=
  ⟨d.time, d.lat, d.lon, d.z p⟩

/-- A binary elementwise xarray operation on `DataArray`s: the operands
are aligned on their common coordinates (inner join, keeping the order
of the left operand) and the scalar operation is applied pointwise. -/
def dZip (f : AVal → AVal → AVal) (a b : DataArray) : DataArray :=
  ⟨a.time.filter (· ∈ b.time), a.lat.filter (· ∈ b.lat),
   a.lon.filter (· ∈ b.lon),
   fun t la lo => f (a.val t la lo) (b.val t la lo)⟩

/-- A unary elementwise xarray operation on a `DataArray`. -/
def dMap (f : AVal → AVal) (a : DataArray) : DataArray :=
  ⟨a.time, a.lat, a.lon, fun t la lo => f (a.val t la lo)⟩

/-- Embedding of `.isel(valid_time=0).squeeze()`: select position 0 of
the `valid_time` dimension and collapse it, leaving a two-dimensional
latitude × longitude field. -/
def DataArray.iselTime0Squeeze (a : DataArray) : GriddedField :=
  ⟨a.lat, a.lon, fun la lo => a.val a.time.headI la lo⟩

/-- A binary elementwise xarray operation on two-dimensional fields,
with the same inner-join coordinate alignment as `dZip`. -/
def fZip (f : AVal → AVal → AVal) (a b : GriddedField) : GriddedField :=
  ⟨a.lat.filter (· ∈ b.lat), a.lon.filter (· ∈ b.lon),
   fun la lo => f (a.val la lo) (b.val la lo)⟩

/-- A unary elementwise xarray operation on a two-dimensional field. -/
def fMap (f : AVal → AVal) (a : GriddedField) : GriddedField :=
  ⟨a.lat, a.lon, fun la lo => f (a.val la lo)⟩

/-- Embedding of `calculate_wind_shear` (main.py, lines 41-69): select
`u`, `v`, `z` at pressure levels 300 and 500, form the elementwise
differences `delta_u = u1 - u2`, `delta_v = v1 - v2`,
`delta_z = z1 - z2` (level 500 minus level 300), take
`np.sqrt((delta_u/delta_z)**2 + (delta_v/delta_z)**2)`, and collapse the
singleton `valid_time` dimension with `.isel(valid_time=0).squeeze()`. -/
noncomputable def calculate_wind_shear (data : Dataset) : GriddedField :=
  let u2 := data.selU 300
  let v2 := data.selV 300
  let z2 := data.selZ 300
  let u1 := data.selU 500
  let v1 := data.selV 500
  let z1 := data.selZ 500
  let delta_u := dZip aSub u1 u2
  let delta_v := dZip aSub v1 v2
  let delta_z := dZip aSub z1 z2
  let vertical_shear :=
    dMap aSqrt (dZip aAdd (dMap aSq (dZip aDiv delta_u delta_z))
                          (dMap aSq (dZip aDiv delta_v delta_z)))
  vertical_shear.iselTime0Squeeze

/-- Embedding of numpy's second-order boundary-aware gradient
(`np.gradient` with a coordinate array, as used by
`xarray.DataArray.differentiate`): one-sided differences at the two
boundary positions, and in the interior the second-order formula for
possibly non-uniform spacing, with left spacing `hs` and right spacing
`hd`.  Positions are located by the index of the coordinate value `x` in
the coordinate list; a list with fewer than two points has no defined
gradient, modelled as `nan`. -/
noncomputable def gradAt (coords : List ℚ) (f : ℚ → AVal) (x : ℚ) : AVal :=
  let n := coords.length
  let i := coords.indexOf x
  if n < 2 then .nan
  else if i = 0 then
    aDiv (aSub (f (coords.getD 1 0)) (f (coords.getD 0 0)))
         (.fin ((coords.getD 1 0 - coords.getD 0 0 : ℚ) : ℝ))
  else if i = n - 1 then
    aDiv (aSub (f (coords.getD (n - 1) 0)) (f (coords.getD (n - 2) 0)))
         (.fin ((coords.getD (n - 1) 0 - coords.getD (n - 2) 0 : ℚ) : ℝ))
  else
    let xm := coords.getD (i - 1) 0
    let x0 := coords.getD i 0
    let xp := coords.getD (i + 1) 0
    let hs : ℚ := x0 - xm
    let hd : ℚ := xp - x0
    aDiv (aAdd (aAdd (aMul (.fin ((hs * hs : ℚ) : ℝ)) (f xp))
                     (aMul (.fin ((hd * hd - hs * hs : ℚ) : ℝ)) (f x0)))
               (aMul (.fin ((-(hd * hd) : ℚ) : ℝ)) (f xm)))
         (.fin ((hs * hd * (hs + hd) : ℚ) : ℝ))

/-- Embedding of `.differentiate('latitude')` on a `DataArray`. -/
noncomputable def DataArray.differentiateLat (a : DataArray) : DataArray :=
  ⟨a.time, a.lat, a.lon,
   fun t la lo => gradAt a.lat (fun la' => a.val t la' lo) la⟩

/-- Embedding of `.differentiate('longitude')` on a `DataArray`. -/
noncomputable def DataArray.differentiateLon (a : DataArray) : DataArray :=
  ⟨a.time, a.lat, a.lon,
   fun t la lo => gradAt a.lon (fun lo' => a.val t la lo') lo⟩

/-- Embedding of `calculate_horizontal_shear` (main.py, lines 114-133):
select `u` and `v` at pressure level 500, compute all four coordinate
gradients, combine only `u_lon_gradient` and `v_lat_gradient` as
`np.sqrt(u_lon_gradient**2 + v_lat_gradient**2)`, and collapse the
singleton `valid_time` dimension. -/
noncomputable def calculate_horizontal_shear (data : Dataset) : GriddedField :=
  let u_wind := data.selU 500
  let v_wind := data.selV 500
  let u_lat_gradient := u_wind.differentiateLat
  let u_lon_gradient := u_wind.differentiateLon
  let v_lat_gradient := v_wind.differentiateLat
  let v_lon_gradient := v_wind.differentiateLon
  let horizontal_shear :=
    dMap aSqrt (dZip aAdd (dMap aSq u_lon_gradient) (dMap aSq v_lat_gradient))
  horizontal_shear.iselTime0Squeeze

/-- Embedding of `calculate_general_wind_shear` (main.py, lines
135-146): `np.sqrt(horizontal_shear**2 + vertical_shear**2)` on the
two-dimensional shear fields, with xarray's silent inner-join coordinate
alignment and no coordinate-equality check of its own. -/
noncomputable def calculate_general_wind_shear
    (vertical_shear horizontal_shear : GriddedField) : GriddedField :=
  fMap aSqrt (fZip aAdd (fMap aSq horizontal_shear) (fMap aSq vertical_shear))

/-- Embedding of the classification step of `get_turbulence_data`
(bot.py, lines 112-113): `np.vectorize(classify_turbulence)` applied to
the general-wind-shear field, wrapped in
`xr.DataArray(..., coords=[latitude, longitude])` with the source
field's coordinates. -/
noncomputable def make_turbulence_data
    (general_wind_shear : GriddedField) : TurbulenceGrid :=
  ⟨general_wind_shear.lat, general_wind_shear.lon,
   fun la lo => classify_turbulence (general_wind_shear.val la lo)⟩

/-- The reference form of the horizontal-shear computation used to state
claim C5: it consumes nothing but the coordinate lists, the time
coordinate selected by the squeeze, and the wind components `u` and `v`
at the single (lower, 500 hPa) pressure level, and its magnitude uses
only the longitude gradient of `u` and the latitude gradient of `v`. -/
noncomputable def horizontal_shear_formula (lats lons : List ℚ) (t0 : ℚ)
    (u v : ℚ → ℚ → ℚ → AVal) : GriddedField :=
  ⟨lats, lons,
   fun la lo =>
     aSqrt (aAdd (aSq (gradAt lons (fun lo' => u t0 la lo') lo))
                 (aSq (gradAt lats (fun la' => v t0 la' lo) la)))⟩

/-- A `MultiLevelObservation` hypothesis for claim C9: at every grid
point, the six values entering the vertical-shear formula (both levels
of `u`, `v`, `z` at the selected time) are finite, and the geopotential
difference `delta_z` is nonzero. -/
def finiteObsHyp (d : Dataset) : Prop :=
  ∀ la ∈ d.lat, ∀ lo ∈ d.lon,
    ∃ u1 u2 v1 v2 z1 z2 : ℝ,
      d.u 500 d.time.headI la lo = .fin u1 ∧
      d.u 300 d.time.headI la lo = .fin u2 ∧
      d.v 500 d.time.headI la lo = .fin v1 ∧
      d.v 300 d.time.headI la lo = .fin v2 ∧
      d.z 500 d.time.headI la lo = .fin z1 ∧
      d.z 300 d.time.headI la lo = .fin z2 ∧
      z1 - z2 ≠ 0

/-- A concrete observation used as a witness: a single-point grid with
constant winds and a pressure-level-dependent geopotential. -/
def exObs : Dataset :=
  ⟨[0], [10], [0],
   fun _ _ _ _ => .fin 10,
   fun _ _ _ _ => .fin 0,
   fun p _ _ _ => .fin ((p : ℚ) : ℝ)⟩

/-- A concrete vertical-shear field used for claim C3: one latitude
point. -/
def vfieldEx : GriddedField := ⟨[10], [0], fun _ _ => .fin 3⟩

/-- A concrete horizontal-shear field used for claim C3: two latitude
points, so its coordinates differ from those of `vfieldEx`. -/
def hfieldEx : GriddedField := ⟨[10, 20], [0], fun _ _ => .fin 4⟩

end TurbulenceBot

namespace TurbulenceBot

theorem aLt_fin_fin (x y : ℝ) : aLt (.fin x) (.fin y) = decide (x < y) := rfl

/-- Unfolding of the classifier on a finite value into real-valued
comparisons. -/
theorem classify_fin_eq (x : ℝ) :
    classify_turbulence (.fin x) =
      if x < 5 then 0 else if x < 10 then 1 else if x < 15 then 2 else 3 := by
  simp only [classify_turbulence, aLt_fin_fin, decide_eq_true_eq]

/-- Claim C2: for every real shear value `x`, the classifier returns 0 on
`x < 5`, 1 on `5 ≤ x < 10`, 2 on `10 ≤ x < 15`, and 3 on `15 ≤ x`. -/
theorem classify_turbulence_bins (x : ℝ) :
    (x < 5 → classify_turbulence (.fin x) = 0) ∧
    (5 ≤ x → x < 10 → classify_turbulence (.fin x) = 1) ∧
    (10 ≤ x → x < 15 → classify_turbulence (.fin x) = 2) ∧
    (15 ≤ x → classify_turbulence (.fin x) = 3) := by
  refine ⟨fun h => ?_, fun h1 h2 => ?_, fun h1 h2 => ?_, fun h => ?_⟩
  · rw [classify_fin_eq, if_pos h]
  · rw [classify_fin_eq, if_neg (not_lt.mpr h1), if_pos h2]
  · rw [classify_fin_eq, if_neg (not_lt.mpr (by linarith)), if_neg (not_lt.mpr h1),
      if_pos h2]
  · rw [classify_fin_eq, if_neg (not_lt.mpr (by linarith)),
      if_neg (not_lt.mpr (by linarith)), if_neg (not_lt.mpr h)]

/-- Witness for C2: the six boundary inputs of the claim, classified as
stated. -/
theorem classify_turbulence_bins_witness :
    ((4999 / 1000 : ℝ) < 5 ∧ classify_turbulence (.fin (4999 / 1000)) = 0) ∧
    ((5 : ℝ) ≤ 5 ∧ (5 : ℝ) < 10 ∧ classify_turbulence (.fin 5) = 1) ∧
    ((5 : ℝ) ≤ 9999 / 1000 ∧ (9999 / 1000 : ℝ) < 10 ∧
      classify_turbulence (.fin (9999 / 1000)) = 1) ∧
    ((10 : ℝ) ≤ 10 ∧ (10 : ℝ) < 15 ∧ classify_turbulence (.fin 10) = 2) ∧
    ((10 : ℝ) ≤ 14999 / 1000 ∧ (14999 / 1000 : ℝ) < 15 ∧
      classify_turbulence (.fin (14999 / 1000)) = 2) ∧
    ((15 : ℝ) ≤ 15 ∧ classify_turbulence (.fin 15) = 3) :=
  ⟨⟨by norm_num, (classify_turbulence_bins _).1 (by norm_num)⟩,
   ⟨by norm_num, by norm_num, (classify_turbulence_bins _).2.1 (by norm_num) (by norm_num)⟩,
   ⟨by norm_num, by norm_num, (classify_turbulence_bins _).2.1 (by norm_num) (by norm_num)⟩,
   ⟨by norm_num, by norm_num, (classify_turbulence_bins _).2.2.1 (by norm_num) (by norm_num)⟩,
   ⟨by norm_num, by norm_num, (classify_turbulence_bins _).2.2.1 (by norm_num) (by norm_num)⟩,
   ⟨by norm_num, (classify_turbulence_bins _).2.2.2 (by norm_num)⟩⟩

/-- Counterexample to claim C4: on the non-finite input `nan` the
classifier does not return a distinguishable unknown category; its result
lies in the four ordinary bins (it is 3). -/
theorem classify_turbulence_nan_in_bins :
    classify_turbulence AVal.nan ∈ ({0, 1, 2, 3} : Set ℕ) := by
  have h : classify_turbulence AVal.nan = 3 := rfl
  rw [h]
  simp

/-- Claim C4 (amended): non-finite inputs fall into the ordinary bins:
`nan` and `+inf` classify as 3 (Extreme) and `-inf` classifies as 0
(Light); no separate unknown category exists. -/
theorem classify_turbulence_nonfinite :
    classify_turbulence AVal.nan = 3 ∧
    classify_turbulence AVal.pinf = 3 ∧
    classify_turbulence AVal.ninf = 0 :=
  ⟨rfl, rfl, rfl⟩

/-- Claim C6: region resolution is total by construction;
`resolve_continent "Europe"` is the query-form box
`(71, -31, 36, 40)`, and any name that is not an exact key of the
seven-continent mapping resolves to exactly Europe's bounds. -/
theorem resolve_continent_spec :
    resolve_continent "Europe" = ((71, -31, 36, 40) : RegionBox) ∧
    ∀ s : String, continent_boundaries.lookup s = none →
      resolve_continent s = ((71, -31, 36, 40) : RegionBox) := by
  constructor
  · have h : List.lookup "Europe" continent_boundaries
        = some (71.00, -31.00, 36.00, 40.00) := rfl
    unfold resolve_continent
    rw [h, Option.getD_some]
    norm_num [Prod.ext_iff]
  · intro s hs
    unfold resolve_continent
    rw [hs, Option.getD_none]
    norm_num [Prod.ext_iff]

/-- Witness for C6: the name "Nowhereland" is not a key of the mapping
and resolves to Europe's bounds. -/
theorem resolve_continent_spec_witness :
    continent_boundaries.lookup "Nowhereland" = none ∧
    resolve_continent "Nowhereland" = ((71, -31, 36, 40) : RegionBox) :=
  ⟨rfl, resolve_continent_spec.2 "Nowhereland" rfl⟩

/-- Claim C7: the conversion between the two box conventions is a pure
total reordering taking query form `(north, west, south, east)` to
display form `(west, east, south, north)`, and the round trip from
display form through `to_query_form` and back is the identity. -/
theorem convert_api_to_plot_format_round_trip :
    (∀ north west south east : ℚ,
      convert_api_to_plot_format (north, west, south, east)
        = (west, east, south, north)) ∧
    (∀ x : RegionBox, convert_api_to_plot_format (to_query_form x) = x) := by
  refine ⟨fun n w s e => rfl, fun x => ?_⟩
  obtain ⟨w, e, s, n⟩ := x
  rfl

theorem filter_mem_self (l : List ℚ) : l.filter (· ∈ l) = l :=
  List.filter_eq_self.mpr fun _ ha => decide_eq_true ha

theorem aSub_fin (x y : ℝ) : aSub (.fin x) (.fin y) = .fin (x - y) := rfl

theorem aAdd_fin (x y : ℝ) : aAdd (.fin x) (.fin y) = .fin (x + y) := rfl

theorem aSq_fin (x : ℝ) : aSq (.fin x) = .fin (x ^ 2) := rfl

theorem aDiv_fin_ne (x y : ℝ) (h : y ≠ 0) :
    aDiv (.fin x) (.fin y) = .fin (x / y) := by
  simp [aDiv, h]

theorem aSqrt_fin_of_nonneg (x : ℝ) (h : 0 ≤ x) :
    aSqrt (.fin x) = .fin (Real.sqrt x) := by
  simp [aSqrt, not_lt.mpr h]

/-- Structural unfolding of `calculate_wind_shear`: the result carries
the dataset's latitude/longitude coordinates and its value at each grid
point is the vertical-shear magnitude formula evaluated at the first
(single) time coordinate. -/
theorem wind_shear_unfold (d : Dataset) :
    calculate_wind_shear d =
      ⟨d.lat, d.lon, fun la lo =>
        aSqrt (aAdd
          (aSq (aDiv (aSub (d.u 500 d.time.headI la lo) (d.u 300 d.time.headI la lo))
                     (aSub (d.z 500 d.time.headI la lo) (d.z 300 d.time.headI la lo))))
          (aSq (aDiv (aSub (d.v 500 d.time.headI la lo) (d.v 300 d.time.headI la lo))
                     (aSub (d.z 500 d.time.headI la lo) (d.z 300 d.time.headI la lo)))))⟩ := by
  simp [calculate_wind_shear, Dataset.selU, Dataset.selV, Dataset.selZ, dZip, dMap,
    DataArray.iselTime0Squeeze, filter_mem_self]

/-- Claim C1: `calculate_wind_shear` returns a grid with the
observation's latitude/longitude coordinates, the singleton time
dimension collapsed, whose value at every grid point is
`sqrt((du/dz)^2 + (dv/dz)^2)` with `du = u(500) - u(300)`,
`dv = v(500) - v(300)`, `dz = z(500) - z(300)`. -/
theorem calculate_wind_shear_spec (d : Dataset) :
    (calculate_wind_shear d).lat = d.lat ∧
    (calculate_wind_shear d).lon = d.lon ∧
    ∀ la lo, (calculate_wind_shear d).val la lo =
      aSqrt (aAdd
        (aSq (aDiv (aSub (d.u 500 d.time.headI la lo) (d.u 300 d.time.headI la lo))
                   (aSub (d.z 500 d.time.headI la lo) (d.z 300 d.time.headI la lo))))
        (aSq (aDiv (aSub (d.v 500 d.time.headI la lo) (d.v 300 d.time.headI la lo))
                   (aSub (d.z 500 d.time.headI la lo) (d.z 300 d.time.headI la lo))))) := by
  rw [wind_shear_unfold]
  exact ⟨rfl, rfl, fun la lo => rfl⟩

/-- Claim C9: on an observation whose values entering the vertical-shear
formula are finite with a nonzero geopotential difference at every grid
point, `calculate_wind_shear` is finite and non-negative at every grid
point. -/
theorem calculate_wind_shear_nonneg_finite (d : Dataset) (h : finiteObsHyp d) :
    ∀ la ∈ d.lat, ∀ lo ∈ d.lon,
      ∃ y : ℝ, (calculate_wind_shear d).val la lo = .fin y ∧ 0 ≤ y := by
  intro la hla lo hlo
  obtain ⟨u1, u2, v1, v2, z1, z2, hu1, hu2, hv1, hv2, hz1, hz2, hz⟩ := h la hla lo hlo
  rw [wind_shear_unfold]
  simp only
  rw [hu1, hu2, hv1, hv2, hz1, hz2, aSub_fin, aSub_fin, aSub_fin,
    aDiv_fin_ne _ _ hz, aDiv_fin_ne _ _ hz, aSq_fin, aSq_fin, aAdd_fin,
    aSqrt_fin_of_nonneg _ (by positivity)]
  exact ⟨_, rfl, Real.sqrt_nonneg _⟩

/-- Witness for C9: a concrete single-point observation with constant
winds and distinct geopotentials at the two levels; its vertical shear
at the grid point is a non-negative finite value. -/
theorem calculate_wind_shear_nonneg_finite_witness :
    finiteObsHyp exObs ∧ 10 ∈ exObs.lat ∧ 0 ∈ exObs.lon ∧
    ∃ y : ℝ, (calculate_wind_shear exObs).val 10 0 = .fin y ∧ 0 ≤ y :=
  have hEx : finiteObsHyp exObs := fun _ _ _ _ =>
    ⟨10, 10, 0, 0, ((500 : ℚ) : ℝ), ((300 : ℚ) : ℝ),
     rfl, rfl, rfl, rfl, rfl, rfl, by norm_num⟩
  ⟨hEx, by decide, by decide,
   calculate_wind_shear_nonneg_finite exObs hEx 10 (by decide) 0 (by decide)⟩

/-- Claim C5: `calculate_horizontal_shear` coincides with the reference
formula consuming only the level-500 wind components: the magnitude
`sqrt((du/dlon)^2 + (dv/dlat)^2)` of the longitude gradient of `u` and
the latitude gradient of `v`, with boundary-aware numerical
differentiation over the coordinate grid; the two cross-gradients the
source also computes do not enter the result. -/
theorem calculate_horizontal_shear_spec (d : Dataset) :
    calculate_horizontal_shear d =
      horizontal_shear_formula d.lat d.lon d.time.headI (d.u 500) (d.v 500) := by
  simp [calculate_horizontal_shear, horizontal_shear_formula, Dataset.selU,
    Dataset.selV, DataArray.differentiateLat, DataArray.differentiateLon, dZip,
    dMap, DataArray.iselTime0Squeeze, filter_mem_self]

/-- Counterexample to claim C3: on two concrete shear fields whose
latitude coordinates are not identical, `calculate_general_wind_shear`
does not fail with any ShapeMismatch condition; it silently returns a
combined field (aligned to the shared coordinates). -/
theorem calculate_general_wind_shear_no_mismatch_failure :
    vfieldEx.lat ≠ hfieldEx.lat ∧
    calculate_general_wind_shear vfieldEx hfieldEx =
      ⟨[10], [0], fun _ _ => aSqrt (aAdd (aSq (.fin 4)) (aSq (.fin 3)))⟩ := by
  constructor
  · decide
  · simp only [calculate_general_wind_shear, fZip, fMap, GriddedField.mk.injEq]
    refine ⟨by decide, by decide, ?_⟩
    funext la lo
    rfl

/-- Claim C3 (amended): on inputs whose coordinates are not identical,
`calculate_general_wind_shear` performs no coordinate-equality check and
raises no ShapeMismatch condition; it silently aligns the two fields on
their common coordinates (inner join, in the order of the horizontal
operand, as the array layer does) and returns
`sqrt(horizontal^2 + vertical^2)` pointwise. -/
theorem calculate_general_wind_shear_aligns
    (vertical_shear horizontal_shear : GriddedField)
    (hne : vertical_shear.lat ≠ horizontal_shear.lat ∨
           vertical_shear.lon ≠ horizontal_shear.lon) :
    (calculate_general_wind_shear vertical_shear horizontal_shear).lat
        = horizontal_shear.lat.filter (· ∈ vertical_shear.lat) ∧
    (calculate_general_wind_shear vertical_shear horizontal_shear).lon
        = horizontal_shear.lon.filter (· ∈ vertical_shear.lon) ∧
    ∀ la lo, (calculate_general_wind_shear vertical_shear horizontal_shear).val la lo
        = aSqrt (aAdd (aSq (horizontal_shear.val la lo))
                      (aSq (vertical_shear.val la lo))) :=
  ⟨rfl, rfl, fun _ _ => rfl⟩

/-- Witness for the amended C3: the two concrete mismatched fields are
silently aligned and combined. -/
theorem calculate_general_wind_shear_aligns_witness :
    (vfieldEx.lat ≠ hfieldEx.lat ∨ vfieldEx.lon ≠ hfieldEx.lon) ∧
    ((calculate_general_wind_shear vfieldEx hfieldEx).lat
        = hfieldEx.lat.filter (· ∈ vfieldEx.lat) ∧
     (calculate_general_wind_shear vfieldEx hfieldEx).lon
        = hfieldEx.lon.filter (· ∈ vfieldEx.lon) ∧
     ∀ la lo, (calculate_general_wind_shear vfieldEx hfieldEx).val la lo
        = aSqrt (aAdd (aSq (hfieldEx.val la lo)) (aSq (vfieldEx.val la lo)))) :=
  ⟨Or.inl (by decide),
   calculate_general_wind_shear_aligns vfieldEx hfieldEx (Or.inl (by decide))⟩

/-- Claim C8: applying the classifier elementwise to a shear field
produces a turbulence field with identical latitude/longitude
coordinates whose values all lie in `{0, 1, 2, 3}`. -/
theorem make_turbulence_data_spec (g : GriddedField) :
    (make_turbulence_data g).lat = g.lat ∧
    (make_turbulence_data g).lon = g.lon ∧
    ∀ la lo, (make_turbulence_data g).val la lo ∈ ({0, 1, 2, 3} : Set ℕ) := by
  refine ⟨rfl, rfl, fun la lo => ?_⟩
  show classify_turbulence (g.val la lo) ∈ _
  unfold classify_turbulence
  split
  · simp
  · split
    · simp
    · split <;> simp

/-- Claim C10: both plotting functions convert their region argument
with `convert_api_to_plot_format` before setting the map extent, so a
query-form box `(north, west, south, east)` produces the extent
`(west, east, south, north)`; the pipeline callers in bot.py pass the
resolved query-form boxes unchanged into the plotting calls. -/
theorem plot_extent_spec :
    (∀ north west south east : ℚ,
      plot_wind_shear_extent (north, west, south, east)
        = (west, east, south, north)) ∧
    (∀ north west south east : ℚ,
      plot_turbulence_level_extent (north, west, south, east)
        = (west, east, south, north)) ∧
    (∀ name : String,
      get_windshear_data_extent name
        = convert_api_to_plot_format (resolve_continent name)) ∧
    (∀ name : String,
      get_turbulence_data_extent name
        = convert_api_to_plot_format (resolve_continent name)) :=
  ⟨fun _ _ _ _ => rfl, fun _ _ _ _ => rfl, fun _ => rfl, fun _ => rfl⟩

end TurbulenceBot
